import Mathlib

/-!
# Verification of the NexoERP sale / sale-line consistency engine

A shallow embedding of the sale ("venda") and sale-line ("itemVenda")
controllers of the NexoERP backend, together with proofs about their
stock-adjustment and total-recomputation behaviour.

Modelling conventions:

* The relational store is a `DB` record of lists of rows; `findUnique`
  becomes `List.find?` on the id, `update` becomes a `List.map` that
  rewrites the matching rows, `delete` becomes a `List.filter`.
* Monetary values (`preco`, `precoUnit`, `total`) are modelled as `Rat`
  (the JavaScript code uses IEEE doubles; all the claims under study are
  about exact recomputation identities, which the code expresses as plain
  sums and products).
* `estoque` is `Option Int` mirroring the nullable integer column; the
  SQL `estoque = estoque - q` issued by Prisma's atomic
  `decrement`/`increment` maps `none` to `none`, hence `Option.map`.
* JavaScript truthiness tests on optional numeric/string inputs
  (`if (x)`, `x || d`) are made explicit through the `jsTruthy…`/`jsOr…`
  helpers: `0`, `""` and an absent value are falsy.
* Each controller action is a function `DB → … → Except Erro DB`.
  A `.error` result models a request that was rejected before the
  transaction or whose transaction rolled back: the store is unchanged.
  Execution is sequential (each awaited write is visible to later reads
  of the same request), which is the intended semantics of the code's
  single-request transactions.
* Timestamps (`data` fields) and the date-parsing helpers are omitted:
  no claim under study mentions them and they do not interact with stock
  or totals.
-/

namespace NexoERP

/-- A catalog entry (`produto` table): product or service. -/
structure Produto where
  id : Nat
  nome : String
  preco : Rat
  estoque : Option Int
  tipo : String
  status : String
  deriving Repr, DecidableEq

/-- A sale (`venda` table).  `data` (timestamp) is omitted, see module docs. -/
structure Venda where
  id : Nat
  clienteId : Nat
  usuarioId : Nat
  status : String
  total : Rat
  observacoes : Option String
  deriving Repr, DecidableEq

/-- A sale line (`itemVenda` table). -/
structure ItemVenda where
  id : Nat
  vendaId : Nat
  produtoId : Nat
  quantidade : Int
  precoUnit : Rat
  deriving Repr, DecidableEq

/-- The relational store.  `clientes`/`usuarios` only ever have their ids
inspected by the sale engine, so they are lists of ids.  The `next…Id`
counters model the autoincrement primary keys. -/
structure DB where
  clientes : List Nat
  usuarios : List Nat
  produtos : List Produto
  vendas : List Venda
  itens : List ItemVenda
  nextVendaId : Nat
  nextItemId : Nat
  deriving Repr, DecidableEq

/-- Structured sub-errors pushed by `verificarExistenciaRegistros`
(the code pushes message strings; each constructor mirrors one message
shape, keeping the reported numbers). -/
inductive RegErro where
  | clienteNaoEncontrado (id : Nat)
  | usuarioNaoEncontrado (id : Nat)
  | produtoNaoEncontrado (id : Nat)
  | estoqueInsuficiente (nome : String) (disponivel : Int) (solicitado : Int)
  deriving Repr, DecidableEq

/-- Structured errors returned by the controllers (each constructor
mirrors one distinct error response of the source). -/
inductive Erro where
  | dadosInvalidos (detalhes : List String)
  | vendaNaoEncontrada
  | vendaNaoModificavel (status : String)
  | produtoNaoEncontrado
  | produtoInativo
  | estoqueInsuficiente (disponivel : Option Int) (solicitado : Int)
  | itemNaoEncontrado
  | statusInvalido
  | erroValidacao (detalhes : List RegErro)
  | camposObrigatorios
  | vendaSemItens
  | itemInvalido (indice : Nat) (campo : String)
  deriving Repr, DecidableEq

/-! ## JavaScript truthiness helpers -/

/-- JS truthiness of an optional integer: absent and `0` are falsy. -/
def jsTruthyInt : Option Int → Bool
  | some q => q != 0
  | none => false

/-- JS truthiness of an optional rational: absent and `0` are falsy. -/
def jsTruthyRat : Option Rat → Bool
  | some p => p != 0
  | none => false

/-- JS truthiness of an optional id: absent and `0` are falsy. -/
def jsTruthyNat : Option Nat → Bool
  | some n => n != 0
  | none => false

/-- JS truthiness of an optional string: absent and `""` are falsy. -/
def jsTruthyStr : Option String → Bool
  | some s => s != ""
  | none => false

/-- JS `x || d` for an optional rational. -/
def jsOrRat (x : Option Rat) (d : Rat) : Rat :=
  if jsTruthyRat x then x.getD d else d

/-- JS `x || d` for an optional integer. -/
def jsOrInt (x : Option Int) (d : Int) : Int :=
  if jsTruthyInt x then x.getD d else d

/-- JS `x || d` for an optional id. -/
def jsOrNat (x : Option Nat) (d : Nat) : Nat :=
  if jsTruthyNat x then x.getD d else d

/-- JS `x || d` for an optional string. -/
def jsOrStr (x : Option String) (d : String) : String :=
  if jsTruthyStr x then x.getD d else d

/-! ## Lookups -/

/-- `prisma.produto.findUnique({ where: { id } })`. -/
def findProduto (db : DB) (id : Nat) : Option Produto :=
  db.produtos.find? (fun p => p.id == id)

/-- `prisma.venda.findUnique({ where: { id } })`. -/
def findVenda (db : DB) (id : Nat) : Option Venda :=
  db.vendas.find? (fun v => v.id == id)

/-- `prisma.itemVenda.findUnique({ where: { id } })`. -/
def findItem (db : DB) (id : Nat) : Option ItemVenda :=
  db.itens.find? (fun it => it.id == id)

/-- `prisma.itemVenda.findMany({ where: { vendaId } })`: the lines of one
sale, in table order. -/
def itensDaVenda (its : List ItemVenda) (vendaId : Nat) : List ItemVenda :=
  its.filter (fun it => it.vendaId == vendaId)

/-! ## Sale-line ("itemVenda") controller -/

/-- Request body of `POST /itemVenda` (AddLine).  `vendaId`, `produtoId`
and `quantidade` are numeric in every request the claims exercise;
`precoUnit` is optional. -/
structure ItemVendaInput where
  vendaId : Nat
  produtoId : Nat
  quantidade : Int
  precoUnit : Option Rat
  deriving Repr, DecidableEq

/-- Request body of `PUT /itemVenda/:id` (UpdateLine): all fields optional. -/
structure ItemVendaUpdate where
  quantidade : Option Int
  precoUnit : Option Rat
  produtoId : Option Nat
  deriving Repr, DecidableEq

/-- `validarItemVenda(dados)` in creation mode: requires truthy
`vendaId`/`produtoId`, positive `quantidade`, non-negative `precoUnit`. -/
def validarItemVendaCreate (inp : ItemVendaInput) : List String :=
  (if inp.vendaId == 0 then ["vendaId e obrigatorio e deve ser um numero valido"] else []) ++
  (if inp.produtoId == 0 then ["produtoId e obrigatorio e deve ser um numero valido"] else []) ++
  (if inp.quantidade ≤ 0 then ["Quantidade deve ser um numero maior que zero"] else []) ++
  (match inp.precoUnit with
   | some p => if p < 0 then ["Preco unitario deve ser um numero nao negativo"] else []
   | none => [])

/-- `validarItemVenda(dados, true)` (update mode): checks only the fields
that are present. -/
def validarItemVendaUpdate (inp : ItemVendaUpdate) : List String :=
  (match inp.quantidade with
   | some q => if q ≤ 0 then ["Quantidade deve ser um numero maior que zero"] else []
   | none => []) ++
  (match inp.precoUnit with
   | some p => if p < 0 then ["Preco unitario deve ser um numero nao negativo"] else []
   | none => [])

/-- `verificarDisponibilidadeProduto(produtoId, quantidade, itemId)`.
On an update (`itemId` present) the line's current quantity is subtracted
before comparing with stock.  The JS comparison `produto.estoque <
quantidadeNecessaria` coerces a `null` stock to `0`, hence `getD 0`.
Returns the product and the net quantity on success. -/
def verificarDisponibilidadeProduto (db : DB) (produtoId : Nat) (quantidade : Int)
    (itemId : Option Nat) : Except Erro (Produto × Int) :=
  match findProduto db produtoId with
  | none => .error .produtoNaoEncontrado
  | some produto =>
    if produto.status ≠ "Ativo" then .error .produtoInativo
    else
      let quantidadeNecessaria :=
        match itemId with
        | some i =>
          match findItem db i with
          | some itemAtual => quantidade - itemAtual.quantidade
          | none => quantidade
        | none => quantidade
      if produto.estoque.getD 0 < quantidadeNecessaria then
        .error (.estoqueInsuficiente produto.estoque quantidadeNecessaria)
      else
        .ok (produto, quantidadeNecessaria)

/-- `verificarVendaModificavel(vendaId)`: a sale accepts line mutations
unless its status is `Concluida` or `Cancelada`. -/
def verificarVendaModificavel (db : DB) (vendaId : Nat) : Except Erro Venda :=
  match findVenda db vendaId with
  | none => .error .vendaNaoEncontrada
  | some venda =>
    if venda.status = "Concluida" then .error (.vendaNaoModificavel "Concluida")
    else if venda.status = "Cancelada" then .error (.vendaNaoModificavel "Cancelada")
    else .ok venda

/-- `itens.reduce((total, item) => total + item.quantidade * item.precoUnit, 0)`
over the lines of one sale: the recomputed total. -/
def totalVenda (its : List ItemVenda) (vendaId : Nat) : Rat :=
  ((itensDaVenda its vendaId).map (fun it => (it.quantidade : Rat) * it.precoUnit)).sum

/-- `atualizarTotalVenda(vendaId)`: recompute the sale's total from its
current lines and write it to the sale row. -/
def atualizarTotalVenda (db : DB) (vendaId : Nat) : DB :=
  { db with
    vendas := db.vendas.map (fun v =>
      if v.id = vendaId then { v with total := totalVenda db.itens vendaId } else v) }

/-- `create` of the itemVenda controller (AddLine): validate, check the
parent sale is modifiable, check availability (no net adjustment:
`itemId = none`), default `precoUnit` to the catalog price when falsy,
insert the line and recompute the parent total in one transaction. -/
def itemVendaCreate (db : DB) (inp : ItemVendaInput) : Except Erro DB :=
  let errors := validarItemVendaCreate inp
  if errors ≠ [] then .error (.dadosInvalidos errors)
  else
    match verificarVendaModificavel db inp.vendaId with
    | .error e => .error e
    | .ok _ =>
      match verificarDisponibilidadeProduto db inp.produtoId inp.quantidade none with
      | .error e => .error e
      | .ok (produto, _) =>
        let precoFinal := jsOrRat inp.precoUnit produto.preco
        let novoItem : ItemVenda :=
          { id := db.nextItemId, vendaId := inp.vendaId, produtoId := inp.produtoId
            quantidade := inp.quantidade, precoUnit := precoFinal }
        let db1 := { db with itens := db.itens ++ [novoItem], nextItemId := db.nextItemId + 1 }
        .ok (atualizarTotalVenda db1 inp.vendaId)

/-- The field rewrite of `update` (itemVenda): each field is written only
when its request value is truthy (`if (quantidade) …` etc.); `vendaId`
is never touched. -/
def aplicarAtualizacaoItem (inp : ItemVendaUpdate) (it : ItemVenda) : ItemVenda :=
  { it with
    quantidade := if jsTruthyInt inp.quantidade then inp.quantidade.getD it.quantidade else it.quantidade
    precoUnit := if jsTruthyRat inp.precoUnit then inp.precoUnit.getD it.precoUnit else it.precoUnit
    produtoId := if jsTruthyNat inp.produtoId then inp.produtoId.getD it.produtoId else it.produtoId }

/-- `update` of the itemVenda controller (UpdateLine).  When `produtoId`
or `quantidade` is truthy, availability is re-checked passing the line id,
i.e. against the net additional quantity.  The parent total is then
recomputed in the same transaction. -/
def itemVendaUpdate (db : DB) (id : Nat) (inp : ItemVendaUpdate) : Except Erro DB :=
  let errors := validarItemVendaUpdate inp
  if errors ≠ [] then .error (.dadosInvalidos errors)
  else
    match findItem db id with
    | none => .error .itemNaoEncontrado
    | some itemAtual =>
      match verificarVendaModificavel db itemAtual.vendaId with
      | .error e => .error e
      | .ok _ =>
        let verif : Except Erro Unit :=
          if jsTruthyNat inp.produtoId || jsTruthyInt inp.quantidade then
            let produtoAlvo := jsOrNat inp.produtoId itemAtual.produtoId
            let quantidadeAlvo := jsOrInt inp.quantidade itemAtual.quantidade
            match verificarDisponibilidadeProduto db produtoAlvo quantidadeAlvo (some id) with
            | .error e => .error e
            | .ok _ => .ok ()
          else .ok ()
        match verif with
        | .error e => .error e
        | .ok _ =>
          let db1 := { db with
            itens := db.itens.map (fun it => if it.id = id then aplicarAtualizacaoItem inp it else it) }
          .ok (atualizarTotalVenda db1 itemAtual.vendaId)

/-- `remove` of the itemVenda controller (DeleteLine): delete the line and
recompute the parent total in one transaction. -/
def itemVendaRemove (db : DB) (id : Nat) : Except Erro DB :=
  match findItem db id with
  | none => .error .itemNaoEncontrado
  | some item =>
    match verificarVendaModificavel db item.vendaId with
    | .error e => .error e
    | .ok _ =>
      let db1 := { db with itens := db.itens.filter (fun it => it.id ≠ id) }
      .ok (atualizarTotalVenda db1 item.vendaId)

/-! ## Sale ("venda") controller -/

/-- One atomic `tx.produto.update({ where: { id }, data: { estoque:
{ increment/decrement } } })`: add `d` to the stock of the rows with the
given id (SQL `estoque = estoque + d`, which keeps `NULL` as `NULL`). -/
def ajustarEstoque (ps : List Produto) (produtoId : Nat) (d : Int) : List Produto :=
  ps.map (fun p => if p.id = produtoId then { p with estoque := p.estoque.map (· + d) } else p)

/-- The stock-management loop of `updateStatus` / `update` / `remove`
(venda): for each line of the sale whose included product (`item.produto`,
joined from the pre-transaction read `snap`) is Product-kind, adjust that
product's stock by `s * quantidade` (`s = -1` decrement, `s = 1`
increment). -/
def ajustarEstoquePorItens (snap : List Produto) (its : List ItemVenda) (s : Int)
    (ps : List Produto) : List Produto :=
  its.foldl (fun acc it =>
    match snap.find? (fun p => p.id == it.produtoId) with
    | some produto =>
      if produto.tipo = "Produto" then ajustarEstoque acc it.produtoId (s * it.quantidade) else acc
    | none => acc) ps

/-- Request line of `POST /venda` (Create(sale)). -/
structure VendaItemInput where
  produtoId : Nat
  quantidade : Int
  precoUnit : Option Rat
  deriving Repr, DecidableEq

/-- Request body of `POST /venda`. -/
structure VendaInput where
  clienteId : Nat
  usuarioId : Nat
  status : Option String
  itens : List VendaItemInput
  total : Option Rat
  observacoes : Option String
  deriving Repr, DecidableEq

/-- The per-line body of the product loop in
`verificarExistenciaRegistros`: unknown product, or — only for
Product-kind entries — requested quantity above the stock (`estoque || 0`
treats a `null` stock as `0`).  Service-kind lines produce no error. -/
def erroEstoqueItem (db : DB) (item : VendaItemInput) : Option RegErro :=
  match findProduto db item.produtoId with
  | none => some (.produtoNaoEncontrado item.produtoId)
  | some produto =>
    if produto.tipo = "Produto" && produto.estoque.getD 0 < item.quantidade then
      some (.estoqueInsuficiente produto.nome (produto.estoque.getD 0) item.quantidade)
    else none

/-- `verificarExistenciaRegistros(clienteId, usuarioId, itens)`: collect
the customer and staff-user reference errors, then the per-line product
errors in request order. -/
def verificarExistenciaRegistros (db : DB) (clienteId usuarioId : Nat)
    (itens : List VendaItemInput) : List RegErro :=
  (if db.clientes.contains clienteId then [] else [.clienteNaoEncontrado clienteId]) ++
  (if db.usuarios.contains usuarioId then [] else [.usuarioNaoEncontrado usuarioId]) ++
  itens.filterMap (erroEstoqueItem db)

/-- The per-line validation loop of `create` (venda): `produtoId` and
`quantidade` must be truthy numbers with `quantidade > 0`; `precoUnit`
must be truthy (`!item.precoUnit` rejects an absent *and* a zero price)
and non-negative.  Returns the failing field of the first bad line. -/
def itemVendaInvalido (item : VendaItemInput) : Option String :=
  if item.produtoId == 0 then some "produtoId"
  else if item.quantidade ≤ 0 then some "quantidade"
  else if !jsTruthyRat item.precoUnit || item.precoUnit.getD 0 < 0 then some "precoUnit"
  else none

/-- Scan of the lines of `create` (venda), reporting the 1-based index of
the first invalid line like the source's `Item ${index + 1}` message. -/
def primeiroItemInvalidoAux (idx : Nat) : List VendaItemInput → Option Erro
  | [] => none
  | item :: rest =>
    match itemVendaInvalido item with
    | some campo => some (.itemInvalido idx campo)
    | none => primeiroItemInvalidoAux (idx + 1) rest

/-- First invalid line of a create-sale request, if any. -/
def primeiroItemInvalido (itens : List VendaItemInput) : Option Erro :=
  primeiroItemInvalidoAux 1 itens

/-- `itens.reduce((sum, item) => sum + parseInt(quantidade) *
parseFloat(precoUnit), 0)` over the request lines (every line's
`precoUnit` is present once validation passed). -/
def somaItensInput (itens : List VendaItemInput) : Rat :=
  (itens.map (fun item => (item.quantidade : Rat) * item.precoUnit.getD 0)).sum

/-- `create` (venda): the persisted total is the caller's `total` when
that value is truthy (`!total ||  isNaN(total)` recomputes), otherwise
the sum over the lines. -/
def totalCalculado (inp : VendaInput) : Rat :=
  match inp.total with
  | some t => if t ≠ 0 then t else somaItensInput inp.itens
  | none => somaItensInput inp.itens

/-- `status: status || 'Pendente'` of `create` (venda).  Note the source
does not validate the status at creation: any truthy string is stored. -/
def statusFinal (inp : VendaInput) : String :=
  jsOrStr inp.status "Pendente"

/-- The sale row written by `create` (venda). -/
def novaVenda (db : DB) (inp : VendaInput) : Venda :=
  { id := db.nextVendaId, clienteId := inp.clienteId, usuarioId := inp.usuarioId
    status := statusFinal inp, total := totalCalculado inp, observacoes := inp.observacoes }

/-- The line rows written by `create` (venda), with fresh sequential ids. -/
def novosItens (db : DB) (inp : VendaInput) : List ItemVenda :=
  inp.itens.enum.map (fun ki =>
    { id := db.nextItemId + ki.1, vendaId := db.nextVendaId, produtoId := ki.2.produtoId
      quantidade := ki.2.quantidade, precoUnit := ki.2.precoUnit.getD 0 })

/-- The stock loop of `create` (venda): for each request line, re-read the
product *inside the transaction* (so after any earlier decrement of this
same loop) and decrement its stock when it is Product-kind with a
non-null stock. -/
def baixarEstoqueCreate (ps : List Produto) (itens : List VendaItemInput) : List Produto :=
  itens.foldl (fun acc item =>
    match acc.find? (fun p => p.id == item.produtoId) with
    | some produto =>
      if produto.tipo = "Produto" && produto.estoque.isSome then
        ajustarEstoque acc item.produtoId (-item.quantidade)
      else acc
    | none => acc) ps

/-- `create` of the venda controller (Create(sale)): validations, then in
one transaction the sale row, its line rows and — when the stored status
is `Concluida` — the stock decrements. -/
def vendaCreate (db : DB) (inp : VendaInput) : Except Erro DB :=
  if inp.clienteId == 0 || inp.usuarioId == 0 then .error .camposObrigatorios
  else if inp.itens = [] then .error .vendaSemItens
  else
    match primeiroItemInvalido inp.itens with
    | some e => .error e
    | none =>
      let errors := verificarExistenciaRegistros db inp.clienteId inp.usuarioId inp.itens
      if errors ≠ [] then .error (.erroValidacao errors)
      else
        let db1 := { db with
          vendas := db.vendas ++ [novaVenda db inp]
          itens := db.itens ++ novosItens db inp
          nextVendaId := db.nextVendaId + 1
          nextItemId := db.nextItemId + inp.itens.length }
        if statusFinal inp = "Concluida" then
          .ok { db1 with produtos := baixarEstoqueCreate db.produtos inp.itens }
        else .ok db1

/-- The valid statuses of `updateStatus` / `update` (venda). -/
def statusValidos : List String := ["Concluida", "Pendente", "Cancelada"]

/-- `updateStatus` of the venda controller: reject a falsy or unknown
status, fail when the sale does not exist, adjust stock per the
transition (old ≠ new; to `Concluida` decrement Product-kind lines;
from `Concluida` increment them; otherwise nothing) and write the new
status, all in one transaction. -/
def vendaUpdateStatus (db : DB) (id : Nat) (status : Option String) : Except Erro DB :=
  if jsTruthyStr status = false ∨ (status.getD "") ∉ statusValidos then
    .error .statusInvalido
  else
    let s := status.getD ""
    match findVenda db id with
    | none => .error .vendaNaoEncontrada
    | some vendaAtual =>
      let its := itensDaVenda db.itens id
      let produtos' :=
        if vendaAtual.status ≠ s then
          if s = "Concluida" then
            ajustarEstoquePorItens db.produtos its (-1) db.produtos
          else if vendaAtual.status = "Concluida" && s ≠ "Concluida" then
            ajustarEstoquePorItens db.produtos its 1 db.produtos
          else db.produtos
        else db.produtos
      .ok { db with
        produtos := produtos'
        vendas := db.vendas.map (fun v => if v.id = id then { v with status := s } else v) }

/-- Request body of `PUT /venda/:id` (`data` omitted, see module docs). -/
structure VendaUpdateInput where
  status : Option String
  observacoes : Option String
  deriving Repr, DecidableEq

/-- `update` of the venda controller: validates the status only when
truthy, updates the provided fields, and runs the same stock-transition
block as `updateStatus` — but comparing the stored status against the
*raw* request value, so an absent status counts as "changed". -/
def vendaUpdate (db : DB) (id : Nat) (inp : VendaUpdateInput) : Except Erro DB :=
  if jsTruthyStr inp.status = true ∧ (inp.status.getD "") ∉ statusValidos then
    .error .statusInvalido
  else
    match findVenda db id with
    | none => .error .vendaNaoEncontrada
    | some vendaAtual =>
      let its := itensDaVenda db.itens id
      let vendas' := db.vendas.map (fun v =>
        if v.id = id then
          { v with
            observacoes := if inp.observacoes.isSome then inp.observacoes else v.observacoes
            status := if jsTruthyStr inp.status then inp.status.getD "" else v.status }
        else v)
      let statusMudou : Bool :=
        match inp.status with
        | some s => vendaAtual.status != s
        | none => true
      let produtos' :=
        if statusMudou then
          if inp.status == some "Concluida" then
            ajustarEstoquePorItens db.produtos its (-1) db.produtos
          else if vendaAtual.status == "Concluida" && inp.status != some "Concluida" then
            ajustarEstoquePorItens db.produtos its 1 db.produtos
          else db.produtos
        else db.produtos
      .ok { db with vendas := vendas', produtos := produtos' }

/-- `remove` of the venda controller (Delete(sale)): when the sale is
currently `Concluida`, first increment the stock of each Product-kind
line's product, then delete the sale; its lines go via cascade delete. -/
def vendaRemove (db : DB) (id : Nat) : Except Erro DB :=
  match findVenda db id with
  | none => .error .vendaNaoEncontrada
  | some venda =>
    let its := itensDaVenda db.itens id
    let produtos' :=
      if venda.status = "Concluida" then ajustarEstoquePorItens db.produtos its 1 db.produtos
      else db.produtos
    .ok { db with
      produtos := produtos'
      vendas := db.vendas.filter (fun v => v.id ≠ id)
      itens := db.itens.filter (fun it => it.vendaId ≠ id) }

/-! ## Net stock deltas

The loops above apply one SQL update per line; the lemmas reduce them to
a single `map` with the net per-product quantity, which is the shape the
claims talk about. -/

/-- Whether the stock-management loops touch the stock for this line:
the included product of the line (joined from the snapshot `snap`) is
Product-kind. -/
def linhaBaixavel (snap : List Produto) (it : ItemVenda) : Bool :=
  match snap.find? (fun p => p.id == it.produtoId) with
  | some produto => produto.tipo == "Produto"
  | none => false

/-- Net quantity by which the transition loops adjust the product `pid`:
the summed quantity of the sale's lines that reference `pid` through a
Product-kind catalog entry. -/
def qtdBaixa (snap : List Produto) (its : List ItemVenda) (pid : Nat) : Int :=
  ((its.filter (fun it => it.produtoId == pid && linhaBaixavel snap it)).map
    (fun it => it.quantidade)).sum

/-- Whether the `create` (venda) stock loop decrements for this request
line: its product exists in the snapshot, is Product-kind, and has a
non-null stock.  (The loop re-reads inside the transaction, but earlier
decrements change neither `tipo` nor the null-ness of `estoque`, so the
snapshot condition is the effective one.) -/
def linhaBaixavelCreate (snap : List Produto) (item : VendaItemInput) : Bool :=
  match snap.find? (fun p => p.id == item.produtoId) with
  | some produto => produto.tipo == "Produto" && produto.estoque.isSome
  | none => false

/-- Net quantity by which `create` (venda) decrements the product `pid`. -/
def qtdBaixaCreate (snap : List Produto) (itens : List VendaItemInput) (pid : Nat) : Int :=
  ((itens.filter (fun item => item.produtoId == pid && linhaBaixavelCreate snap item)).map
    (fun item => item.quantidade)).sum

/-- The per-product row rewrite used to state the create-loop lemma. -/
def comDelta (d : Nat → Int) (p : Produto) : Produto :=
  { p with estoque := p.estoque.map (fun n => n + d p.id) }

/-! ## Sample stores (used by the concrete witnesses) -/

/-- A small store mirroring the repository seed: two products, one
service, one pending and one completed sale, with consistent totals. -/
def dbExemplo : DB :=
  { clientes := [1], usuarios := [1]
    produtos := [
      { id := 1, nome := "Projetor", preco := 1299, estoque := some 12, tipo := "Produto", status := "Ativo" },
      { id := 2, nome := "CachorroQuente", preco := 20, estoque := some 100, tipo := "Produto", status := "Ativo" },
      { id := 3, nome := "Barba", preco := 50, estoque := none, tipo := "Servico", status := "Ativo" }]
    vendas := [
      { id := 1, clienteId := 1, usuarioId := 1, status := "Pendente", total := 40, observacoes := none },
      { id := 2, clienteId := 1, usuarioId := 1, status := "Concluida", total := 2598, observacoes := none }]
    itens := [
      { id := 1, vendaId := 1, produtoId := 2, quantidade := 2, precoUnit := 20 },
      { id := 2, vendaId := 2, produtoId := 1, quantidade := 2, precoUnit := 1299 }]
    nextVendaId := 3, nextItemId := 3 }

/-- The pending sale of `dbExemplo`. -/
def vendaPendenteExemplo : Venda :=
  { id := 1, clienteId := 1, usuarioId := 1, status := "Pendente", total := 40, observacoes := none }

/-- A store whose only (pending) sale already reserves more than the
remaining stock: one product with stock 1, one line of quantity 5. -/
def dbEstoqueBaixo : DB :=
  { clientes := [1], usuarios := [1]
    produtos := [{ id := 1, nome := "P", preco := 10, estoque := some 1, tipo := "Produto", status := "Ativo" }]
    vendas := [{ id := 1, clienteId := 1, usuarioId := 1, status := "Pendente", total := 50, observacoes := none }]
    itens := [{ id := 1, vendaId := 1, produtoId := 1, quantidade := 5, precoUnit := 10 }]
    nextVendaId := 2, nextItemId := 2 }

/-- The sale of `dbEstoqueBaixo`. -/
def vendaEstoqueBaixo : Venda :=
  { id := 1, clienteId := 1, usuarioId := 1, status := "Pendente", total := 50, observacoes := none }

/-- The completed sale of `dbExemplo`. -/
def vendaConcluidaExemplo : Venda :=
  { id := 2, clienteId := 1, usuarioId := 1, status := "Concluida", total := 2598, observacoes := none }

/-! ## Line-operation machinery and invariants -/

/-- One Sale-Line Engine request: AddLine, UpdateLine or DeleteLine. -/
inductive LineOp where
  | add (inp : ItemVendaInput)
  | upd (id : Nat) (inp : ItemVendaUpdate)
  | del (id : Nat)
  deriving Repr, DecidableEq

/-- Dispatch a line operation to its controller action. -/
def runLineOp (db : DB) : LineOp → Except Erro DB
  | .add inp => itemVendaCreate db inp
  | .upd id inp => itemVendaUpdate db id inp
  | .del id => itemVendaRemove db id

/-- The store after a line request: unchanged when the request was
rejected or its transaction rolled back. -/
def applyLineOp (db : DB) (op : LineOp) : DB :=
  match runLineOp db op with
  | .ok db' => db'
  | .error _ => db

/-- The total invariant: every sale's persisted `total` equals the sum of
`quantidade * precoUnit` over its current lines. -/
def totalInvariante (db : DB) : Prop :=
  ∀ v ∈ db.vendas, v.total = totalVenda db.itens v.id

/-- Primary-key sanity for the line table: distinct ids, all below the
autoincrement counter. -/
def itensBemFormados (db : DB) : Prop :=
  (db.itens.map (fun it => it.id)).Nodup ∧ ∀ it ∈ db.itens, it.id < db.nextItemId

/-- Whether a request line of `create` (venda) references a Product-kind
catalog entry (ignoring the null-stock sub-condition of
`linhaBaixavelCreate`). -/
def linhaProduto (snap : List Produto) (item : VendaItemInput) : Bool :=
  match snap.find? (fun p => p.id == item.produtoId) with
  | some produto => produto.tipo == "Produto"
  | none => false

/-- Net quantity of the Product-kind request lines referencing `pid`:
the per-product decrement of `create` under the data-model invariant that
Product-kind entries have non-null stock. -/
def qtdProdutoCreate (snap : List Produto) (itens : List VendaItemInput) (pid : Nat) : Int :=
  ((itens.filter (fun item => item.produtoId == pid && linhaProduto snap item)).map
    (fun item => item.quantidade)).sum

/-! ## Concrete request bodies (used by witnesses and counterexamples) -/

/-- Create-sale request born `Concluida`: 3 hot dogs at 20. -/
def inpCreateConcluida : VendaInput :=
  { clienteId := 1, usuarioId := 1, status := some "Concluida"
    itens := [{ produtoId := 2, quantidade := 1, precoUnit := some 20 },
              { produtoId := 3, quantidade := 1, precoUnit := some 50 }]
    total := none, observacoes := none }

/-- Create-sale request supplying an explicit total of `0`. -/
def inpTotalZero : VendaInput :=
  { clienteId := 1, usuarioId := 1, status := none
    itens := [{ produtoId := 2, quantidade := 1, precoUnit := some 5 }]
    total := some 0, observacoes := none }

/-- Create-sale request whose line omits `precoUnit`. -/
def inpSemPreco : VendaInput :=
  { clienteId := 1, usuarioId := 1, status := none
    itens := [{ produtoId := 2, quantidade := 1, precoUnit := none }]
    total := none, observacoes := none }

/-- Create-sale request with a status outside the documented set. -/
def inpStatusLivre : VendaInput :=
  { clienteId := 1, usuarioId := 1, status := some "EmAndamento"
    itens := [{ produtoId := 2, quantidade := 1, precoUnit := some 20 }]
    total := none, observacoes := none }

/-- AddLine request referencing the Service-kind entry of `dbExemplo`. -/
def addServico : ItemVendaInput :=
  { vendaId := 1, produtoId := 3, quantidade := 1, precoUnit := some 50 }

/-- AddLine request with no `precoUnit` (catalog price expected). -/
def addSemPreco : ItemVendaInput :=
  { vendaId := 1, produtoId := 2, quantidade := 1, precoUnit := none }

/-- A store with one empty pending sale (total 0), base of the C1
witness run. -/
def dbSimples : DB :=
  { clientes := [1], usuarios := [1]
    produtos := [{ id := 1, nome := "P", preco := 20, estoque := some 10, tipo := "Produto", status := "Ativo" }]
    vendas := [{ id := 1, clienteId := 1, usuarioId := 1, status := "Pendente", total := 0, observacoes := none }]
    itens := []
    nextVendaId := 2, nextItemId := 1 }

/-- The line-operation sequence run by the C1 witness. -/
def opsSimples : List LineOp :=
  [.add { vendaId := 1, produtoId := 1, quantidade := 2, precoUnit := some 20 }]

theorem qtdBaixa_nil (snap : List Produto) (pid : Nat) : qtdBaixa snap [] pid = 0 := rfl

theorem qtdBaixa_cons (snap : List Produto) (it : ItemVenda) (rest : List ItemVenda) (pid : Nat) :
    qtdBaixa snap (it :: rest) pid =
      (if (it.produtoId == pid && linhaBaixavel snap it) = true then it.quantidade else 0) +
        qtdBaixa snap rest pid := by
  simp only [qtdBaixa, List.filter_cons]
  split <;> simp

/-- The transition loop equals one `map` applying the net delta
`s * qtdBaixa` to every product row (a `null` stock stays `null`). -/
theorem ajustarEstoquePorItens_eq_map (snap : List Produto) (its : List ItemVenda) (s : Int)
    (ps : List Produto) :
    ajustarEstoquePorItens snap its s ps =
      ps.map (fun p => { p with estoque := p.estoque.map (· + s * qtdBaixa snap its p.id) }) := by
  induction its generalizing ps with
  | nil =>
    simp only [ajustarEstoquePorItens, List.foldl_nil, qtdBaixa_nil, mul_zero]
    refine (List.map_congr_left (fun p _ => ?_)).symm.trans (List.map_id ps) |>.symm
    simp
  | cons it rest ih =>
    show List.foldl _ _ (it :: rest) = _
    rw [List.foldl_cons]
    have hrest : ∀ ps', List.foldl _ ps' rest = ajustarEstoquePorItens snap rest s ps' :=
      fun _ => rfl
    rw [hrest, ih]
    rcases hfind : snap.find? (fun p => p.id == it.produtoId) with _ | produto
    · have hlb : linhaBaixavel snap it = false := by simp [linhaBaixavel, hfind]
      simp only [hfind]
      refine List.map_congr_left (fun p _ => ?_)
      simp [qtdBaixa_cons, hlb]
    · simp only [hfind]
      by_cases htipo : produto.tipo = "Produto"
      · have hlb : linhaBaixavel snap it = true := by simp [linhaBaixavel, hfind, htipo]
        rw [if_pos htipo]
        simp only [ajustarEstoque, List.map_map]
        refine List.map_congr_left (fun p _ => ?_)
        simp only [Function.comp_apply]
        by_cases hid : p.id = it.produtoId
        · simp only [if_pos hid, Option.map_map]
          have harg : (it.produtoId == p.id && linhaBaixavel snap it) = true := by
            simp [hid, hlb]
          simp only [qtdBaixa_cons, harg, if_true]
          cases p.estoque with
          | none => rfl
          | some n =>
            simp only [Option.map_some', Option.some.injEq, Function.comp_apply]
            ring_nf
        · simp only [if_neg hid]
          have harg : (it.produtoId == p.id && linhaBaixavel snap it) = false := by
            simp [Ne.symm hid]
          simp [qtdBaixa_cons, harg]
      · have hlb : linhaBaixavel snap it = false := by simp [linhaBaixavel, hfind, htipo]
        simp only [if_neg htipo]
        refine List.map_congr_left (fun p _ => ?_)
        simp [qtdBaixa_cons, hlb]

theorem qtdBaixaCreate_cons (snap : List Produto) (item : VendaItemInput)
    (rest : List VendaItemInput) (pid : Nat) :
    qtdBaixaCreate snap (item :: rest) pid =
      (if (item.produtoId == pid && linhaBaixavelCreate snap item) = true then item.quantidade else 0) +
        qtdBaixaCreate snap rest pid := by
  simp only [qtdBaixaCreate, List.filter_cons]
  split <;> simp

theorem comDelta_zero (ps : List Produto) : ps.map (comDelta (fun _ => 0)) = ps := by
  refine (List.map_congr_left (fun p _ => ?_)).trans (List.map_id ps)
  simp [comDelta]

theorem find?_map_comDelta (d : Nat → Int) (ps : List Produto) (pid : Nat) :
    (ps.map (comDelta d)).find? (fun p => p.id == pid) =
      (ps.find? (fun p => p.id == pid)).map (comDelta d) := by
  rw [List.find?_map]
  rfl

/-- Strengthened invariant for the `create` stock loop: starting from the
snapshot shifted by an arbitrary per-product delta, the loop adds the
(negative) net decrement on top. -/
theorem baixarEstoqueCreate_comDelta (itens : List VendaItemInput) (ps : List Produto)
    (d : Nat → Int) :
    baixarEstoqueCreate (ps.map (comDelta d)) itens =
      ps.map (comDelta (fun x => d x - qtdBaixaCreate ps itens x)) := by
  induction itens generalizing d with
  | nil =>
    simp only [baixarEstoqueCreate, List.foldl_nil]
    refine List.map_congr_left (fun p _ => ?_)
    simp only [comDelta, qtdBaixaCreate, List.filter_nil, List.map_nil, List.sum_nil, sub_zero]
  | cons item rest ih =>
    show List.foldl _ _ (item :: rest) = _
    rw [List.foldl_cons]
    have hrest : ∀ ps', List.foldl _ ps' rest = baixarEstoqueCreate ps' rest := fun _ => rfl
    rw [hrest]
    rw [find?_map_comDelta]
    rcases hfind : ps.find? (fun p => p.id == item.produtoId) with _ | produto
    · rw [hfind]
      have hlb : linhaBaixavelCreate ps item = false := by
        simp [linhaBaixavelCreate, hfind]
      show baixarEstoqueCreate (ps.map (comDelta d)) rest = _
      rw [ih]
      refine List.map_congr_left (fun p _ => ?_)
      simp [comDelta, qtdBaixaCreate_cons, hlb]
    · rw [hfind]
      simp only [Option.map_some']
      have hcond : ((comDelta d produto).tipo = "Produto" ∧ (comDelta d produto).estoque.isSome) ↔
          (produto.tipo = "Produto" ∧ produto.estoque.isSome) := by
        simp [comDelta]
      by_cases hc : produto.tipo = "Produto" ∧ produto.estoque.isSome = true
      · have hlb : linhaBaixavelCreate ps item = true := by
          simp [linhaBaixavelCreate, hfind, hc.1, hc.2]
        have hcB : (decide ((comDelta d produto).tipo = "Produto") &&
            (comDelta d produto).estoque.isSome) = true := by
          simp [comDelta, hc.1, hc.2]
        rw [if_pos hcB]
        have hstep : ajustarEstoque (ps.map (comDelta d)) item.produtoId (-item.quantidade) =
            ps.map (comDelta (fun x => if x = item.produtoId then d x - item.quantidade else d x)) := by
          simp only [ajustarEstoque, List.map_map]
          refine List.map_congr_left (fun p _ => ?_)
          simp only [Function.comp_apply, comDelta]
          by_cases hid : p.id = item.produtoId
          · cases p.estoque with
            | none => simp [hid]
            | some n =>
              simp [hid, Option.map_map]
              ring_nf
          · simp [hid]
        rw [hstep, ih]
        refine List.map_congr_left (fun p _ => ?_)
        simp only [comDelta]
        by_cases hid : p.id = item.produtoId
        · cases p.estoque with
          | none => simp [hid]
          | some n =>
            simp [hid, qtdBaixaCreate_cons, hlb]
            ring_nf
        · have harg : (item.produtoId == p.id && linhaBaixavelCreate ps item) = false := by
            simp [Ne.symm hid]
          simp [hid, qtdBaixaCreate_cons, harg]
      · have hlb : linhaBaixavelCreate ps item = false := by
          rcases produto.tipo = "Produto" → ?x with _
          simp only [linhaBaixavelCreate, hfind]
          rw [Bool.and_eq_false_iff]
          by_cases ht : produto.tipo = "Produto"
          · right
            simpa [ht] using fun hs => hc ⟨ht, hs⟩
          · left
            simpa using ht
        have hcB : (decide ((comDelta d produto).tipo = "Produto") &&
            (comDelta d produto).estoque.isSome) = false := by
          simp only [comDelta]
          rw [Bool.and_eq_false_iff]
          by_cases ht : produto.tipo = "Produto"
          · right
            simpa [ht] using fun hs => hc ⟨ht, hs⟩
          · left
            simpa using ht
        rw [hcB]
        simp only [Bool.false_eq_true, if_false]
        rw [ih]
        refine List.map_congr_left (fun p _ => ?_)
        simp [comDelta, qtdBaixaCreate_cons, hlb]

/-- The `create` (venda) stock loop equals one `map` subtracting the net
per-product decrement. -/
theorem baixarEstoqueCreate_eq_map (ps : List Produto) (itens : List VendaItemInput) :
    baixarEstoqueCreate ps itens =
      ps.map (fun p => { p with estoque := p.estoque.map (· - qtdBaixaCreate ps itens p.id) }) := by
  have h := baixarEstoqueCreate_comDelta itens ps (fun _ => 0)
  rw [comDelta_zero] at h
  rw [h]
  refine List.map_congr_left (fun p _ => ?_)
  simp only [comDelta, zero_sub]
  cases p.estoque with
  | none => rfl
  | some n =>
    simp only [Option.map_some', Option.some.injEq]
    ring_nf

/-! ## Status-transition behaviour (`updateStatus`) -/

theorem guardaStatusValida {s : String} (hs : s ∈ statusValidos) :
    ¬(jsTruthyStr (some s) = false ∨ s ∉ statusValidos) := by
  rintro (h | h)
  · have hempty : s = "" := by simpa [jsTruthyStr] using h
    rw [hempty] at hs
    simp [statusValidos] at hs
  · exact h hs

/-- Rewrites the transition loop with `s = -1` into the subtraction form. -/
theorem ajustarEstoquePorItens_dec (snap : List Produto) (its : List ItemVenda)
    (ps : List Produto) :
    ajustarEstoquePorItens snap its (-1) ps =
      ps.map (fun p => { p with estoque := p.estoque.map (· - qtdBaixa snap its p.id) }) := by
  rw [ajustarEstoquePorItens_eq_map]
  refine List.map_congr_left (fun p _ => ?_)
  cases p.estoque with
  | none => rfl
  | some n =>
    simp only [Option.map_some', Option.some.injEq]
    ring_nf

/-- Rewrites the transition loop with `s = 1` into the addition form. -/
theorem ajustarEstoquePorItens_inc (snap : List Produto) (its : List ItemVenda)
    (ps : List Produto) :
    ajustarEstoquePorItens snap its 1 ps =
      ps.map (fun p => { p with estoque := p.estoque.map (· + qtdBaixa snap its p.id) }) := by
  rw [ajustarEstoquePorItens_eq_map]
  refine List.map_congr_left (fun p _ => ?_)
  cases p.estoque with
  | none => rfl
  | some n =>
    simp only [Option.map_some', Option.some.injEq]
    ring_nf

/-- C2: `updateStatus` rejects a status outside
{Pendente, Concluida, Cancelada} with the invalid-status error; with a
valid status it fails `vendaNaoEncontrada` on a missing sale; a
same-status call leaves every product untouched; a transition to
`Concluida` from a different status decrements, for every line whose
product is Product-kind, that product's stock by the line's quantity
(`qtdBaixa` sums them per product); a transition from `Concluida` to a
different status increments those stocks back; and any other transition
pair leaves all stock unchanged. -/
theorem updateStatus_transicoes (db : DB) (id : Nat) (s : String) :
    (s ∉ statusValidos → vendaUpdateStatus db id (some s) = .error .statusInvalido) ∧
    (s ∈ statusValidos → findVenda db id = none →
      vendaUpdateStatus db id (some s) = .error .vendaNaoEncontrada) ∧
    (∀ v, s ∈ statusValidos → findVenda db id = some v →
      (v.status = s →
        vendaUpdateStatus db id (some s) = .ok { db with
          vendas := db.vendas.map (fun w => if w.id = id then { w with status := s } else w) }) ∧
      (s = "Concluida" → v.status ≠ "Concluida" →
        vendaUpdateStatus db id (some s) = .ok { db with
          vendas := db.vendas.map (fun w => if w.id = id then { w with status := s } else w)
          produtos := db.produtos.map (fun p =>
            { p with estoque := p.estoque.map (· - qtdBaixa db.produtos (itensDaVenda db.itens id) p.id) }) }) ∧
      (v.status = "Concluida" → s ≠ "Concluida" →
        vendaUpdateStatus db id (some s) = .ok { db with
          vendas := db.vendas.map (fun w => if w.id = id then { w with status := s } else w)
          produtos := db.produtos.map (fun p =>
            { p with estoque := p.estoque.map (· + qtdBaixa db.produtos (itensDaVenda db.itens id) p.id) }) }) ∧
      (v.status ≠ "Concluida" → s ≠ "Concluida" →
        vendaUpdateStatus db id (some s) = .ok { db with
          vendas := db.vendas.map (fun w => if w.id = id then { w with status := s } else w) })) := by
  refine ⟨fun hs => ?_, fun hs hnone => ?_, fun v hs hfind => ?_⟩
  · simp only [vendaUpdateStatus, Option.getD_some]
    rw [if_pos (Or.inr hs)]
  · simp only [vendaUpdateStatus, Option.getD_some]
    rw [if_neg (guardaStatusValida hs), hnone]
  · have hneg := guardaStatusValida hs
    refine ⟨fun hsame => ?_, fun hC hold => ?_, fun hold hC => ?_, fun hold hC => ?_⟩
    · simp only [vendaUpdateStatus, Option.getD_some]
      rw [if_neg hneg, hfind]
      show Except.ok _ = _
      simp [hsame]
    · subst hC
      simp only [vendaUpdateStatus, Option.getD_some]
      rw [if_neg hneg, hfind]
      show Except.ok _ = _
      simp [hold, ajustarEstoquePorItens_dec]
    · simp only [vendaUpdateStatus, Option.getD_some]
      rw [if_neg hneg, hfind]
      show Except.ok _ = _
      simp [hold, hC, Ne.symm hC, ajustarEstoquePorItens_inc]
    · simp only [vendaUpdateStatus, Option.getD_some]
      rw [if_neg hneg, hfind]
      show Except.ok _ = _
      by_cases hvs : v.status = s
      · simp [hvs]
      · simp [hvs, hold, hC]

theorem updateStatus_transicoes_witness :
    vendaUpdateStatus dbExemplo 1 (some "Concluida") = .ok { dbExemplo with
      vendas := dbExemplo.vendas.map (fun w => if w.id = 1 then { w with status := "Concluida" } else w)
      produtos := dbExemplo.produtos.map (fun p =>
        { p with estoque := p.estoque.map (· - qtdBaixa dbExemplo.produtos (itensDaVenda dbExemplo.itens 1) p.id) }) } :=
  ((updateStatus_transicoes dbExemplo 1 "Concluida").2.2 vendaPendenteExemplo (by decide)
    rfl).2.1 rfl (by decide)

/-- C10 (implicit): a status transition to `Concluida` via `updateStatus`
or `update` performs no stock-availability check — it succeeds whenever
the sale exists and, for every Product-kind line, decrements that
product's stock by the line's quantity unconditionally, so a stock of
`some n` becomes `some (n - qtdBaixa …)`, which is negative whenever the
summed line quantity exceeds `n` (see the witness). -/
theorem transicao_concluida_sem_verificacao (db : DB) (id : Nat) (v : Venda) (obs : Option String)
    (hfind : findVenda db id = some v) (hold : v.status ≠ "Concluida") :
    vendaUpdateStatus db id (some "Concluida") = .ok { db with
      vendas := db.vendas.map (fun w => if w.id = id then { w with status := "Concluida" } else w)
      produtos := db.produtos.map (fun p =>
        { p with estoque := p.estoque.map (· - qtdBaixa db.produtos (itensDaVenda db.itens id) p.id) }) } ∧
    vendaUpdate db id { status := some "Concluida", observacoes := obs } = .ok { db with
      vendas := db.vendas.map (fun w =>
        if w.id = id then
          { w with observacoes := if obs.isSome then obs else w.observacoes, status := "Concluida" }
        else w)
      produtos := db.produtos.map (fun p =>
        { p with estoque := p.estoque.map (· - qtdBaixa db.produtos (itensDaVenda db.itens id) p.id) }) } := by
  constructor
  · simp only [vendaUpdateStatus, Option.getD_some]
    rw [if_neg (guardaStatusValida (by simp [statusValidos])), hfind]
    show Except.ok _ = _
    simp [hold, ajustarEstoquePorItens_dec]
  · have hguard : ¬(jsTruthyStr (some "Concluida") = true ∧
        ((some "Concluida" : Option String).getD "") ∉ statusValidos) := by
      rintro ⟨-, h⟩
      exact h (by simp [statusValidos])
    simp only [vendaUpdate]
    rw [if_neg hguard, hfind]
    show Except.ok _ = _
    simp [hold, ajustarEstoquePorItens_dec, jsTruthyStr]

theorem transicao_concluida_sem_verificacao_witness :
    vendaUpdateStatus dbEstoqueBaixo 1 (some "Concluida") = .ok { dbEstoqueBaixo with
      vendas := dbEstoqueBaixo.vendas.map (fun w => if w.id = 1 then { w with status := "Concluida" } else w)
      produtos := dbEstoqueBaixo.produtos.map (fun p =>
        { p with estoque := p.estoque.map (· - qtdBaixa dbEstoqueBaixo.produtos (itensDaVenda dbEstoqueBaixo.itens 1) p.id) }) } ∧
    dbEstoqueBaixo.produtos.map (fun p =>
      p.estoque.map (· - qtdBaixa dbEstoqueBaixo.produtos (itensDaVenda dbEstoqueBaixo.itens 1) p.id)) =
      [some (-4)] := by
  refine ⟨(transicao_concluida_sem_verificacao dbEstoqueBaixo 1 vendaEstoqueBaixo none rfl
    (by decide)).1, ?_⟩
  decide

/-- C7: deleting a sale that is currently `Concluida` first increments,
for every Product-kind line, that product's stock by the line's quantity,
then deletes the sale and (by cascade) all of its lines; deleting a sale
in any other status removes the sale and its lines with no stock change;
a missing sale id fails `vendaNaoEncontrada`. -/
theorem remove_reverte_estoque (db : DB) (id : Nat) :
    (findVenda db id = none → vendaRemove db id = .error .vendaNaoEncontrada) ∧
    (∀ v, findVenda db id = some v →
      (v.status = "Concluida" → vendaRemove db id = .ok { db with
        produtos := db.produtos.map (fun p =>
          { p with estoque := p.estoque.map (· + qtdBaixa db.produtos (itensDaVenda db.itens id) p.id) })
        vendas := db.vendas.filter (fun w => w.id ≠ id)
        itens := db.itens.filter (fun it => it.vendaId ≠ id) }) ∧
      (v.status ≠ "Concluida" → vendaRemove db id = .ok { db with
        vendas := db.vendas.filter (fun w => w.id ≠ id)
        itens := db.itens.filter (fun it => it.vendaId ≠ id) })) := by
  refine ⟨fun hnone => ?_, fun v hfind => ⟨fun hC => ?_, fun hC => ?_⟩⟩
  · simp only [vendaRemove]
    rw [hnone]
  · simp only [vendaRemove]
    rw [hfind]
    show Except.ok _ = _
    simp [hC, ajustarEstoquePorItens_inc]
  · simp only [vendaRemove]
    rw [hfind]
    show Except.ok _ = _
    simp [hC]

theorem remove_reverte_estoque_witness :
    vendaRemove dbExemplo 2 = .ok { dbExemplo with
      produtos := dbExemplo.produtos.map (fun p =>
        { p with estoque := p.estoque.map (· + qtdBaixa dbExemplo.produtos (itensDaVenda dbExemplo.itens 2) p.id) })
      vendas := dbExemplo.vendas.filter (fun w => w.id ≠ 2)
      itens := dbExemplo.itens.filter (fun it => it.vendaId ≠ 2) } :=
  ((remove_reverte_estoque dbExemplo 2).2 vendaConcluidaExemplo rfl).1 rfl

/-! ## Create(sale) behaviour -/

/-- Shape of a successful `create` (venda): all three kinds of rows are
written in one step; when rejected (any hypothesis fails) the function
returns an error and the store is untouched. -/
theorem vendaCreate_ok_shape (db : DB) (inp : VendaInput)
    (h1 : inp.clienteId ≠ 0) (h2 : inp.usuarioId ≠ 0) (h3 : inp.itens ≠ [])
    (h4 : primeiroItemInvalido inp.itens = none)
    (h5 : verificarExistenciaRegistros db inp.clienteId inp.usuarioId inp.itens = []) :
    vendaCreate db inp = .ok { db with
      vendas := db.vendas ++ [novaVenda db inp]
      itens := db.itens ++ novosItens db inp
      nextVendaId := db.nextVendaId + 1
      nextItemId := db.nextItemId + inp.itens.length
      produtos := if statusFinal inp = "Concluida" then
          db.produtos.map (fun p =>
            { p with estoque := p.estoque.map (· - qtdBaixaCreate db.produtos inp.itens p.id) })
        else db.produtos } := by
  have hids : ¬((inp.clienteId == 0 || inp.usuarioId == 0) = true) := by
    simp [h1, h2]
  simp only [vendaCreate]
  rw [if_neg hids, if_neg h3, h4, h5]
  rw [if_neg (by simp)]
  by_cases st : statusFinal inp = "Concluida"
  · rw [if_pos st, if_pos st, baixarEstoqueCreate_eq_map]
  · rw [if_neg st, if_neg st]

/-- Under the data-model invariant (Product-kind entries carry a non-null
stock), the `create` decrement condition reduces to being Product-kind. -/
theorem qtdBaixaCreate_eq_qtdProdutoCreate (snap : List Produto) (itens : List VendaItemInput)
    (pid : Nat) (hprod : ∀ p ∈ snap, p.tipo = "Produto" → p.estoque.isSome) :
    qtdBaixaCreate snap itens pid = qtdProdutoCreate snap itens pid := by
  unfold qtdBaixaCreate qtdProdutoCreate
  congr 1
  apply congrArg
  apply List.filter_congr
  intro item _
  rcases hfind : snap.find? (fun p => p.id == item.produtoId) with _ | produto
  · simp [linhaBaixavelCreate, linhaProduto, hfind]
  · have hmem : produto ∈ snap := List.mem_of_find?_eq_some hfind
    by_cases ht : produto.tipo = "Produto"
    · have hsome : produto.estoque.isSome := hprod produto hmem ht
      simp [linhaBaixavelCreate, linhaProduto, hfind, ht, hsome]
    · have htb : (produto.tipo == "Produto") = false := by simp [ht]
      simp [linhaBaixavelCreate, linhaProduto, hfind, htb]

/-- C4: a valid `create` writes the sale row, all its line rows and —
exactly when the stored status is `Concluida` — the stock decrement of
every Product-kind line, as one step of the transaction; the stock
decrement thus already happens at creation time.  (A rejected request
returns an error with no store change, which is the rollback half of the
claim.) -/
theorem create_atomico_com_baixa (db : DB) (inp : VendaInput)
    (h1 : inp.clienteId ≠ 0) (h2 : inp.usuarioId ≠ 0) (h3 : inp.itens ≠ [])
    (h4 : primeiroItemInvalido inp.itens = none)
    (h5 : verificarExistenciaRegistros db inp.clienteId inp.usuarioId inp.itens = [])
    (hprod : ∀ p ∈ db.produtos, p.tipo = "Produto" → p.estoque.isSome) :
    vendaCreate db inp = .ok { db with
      vendas := db.vendas ++ [novaVenda db inp]
      itens := db.itens ++ novosItens db inp
      nextVendaId := db.nextVendaId + 1
      nextItemId := db.nextItemId + inp.itens.length
      produtos := if statusFinal inp = "Concluida" then
          db.produtos.map (fun p =>
            { p with estoque := p.estoque.map (· - qtdProdutoCreate db.produtos inp.itens p.id) })
        else db.produtos } := by
  rw [vendaCreate_ok_shape db inp h1 h2 h3 h4 h5]
  by_cases st : statusFinal inp = "Concluida"
  · rw [if_pos st, if_pos st]
    have : ∀ p : Produto,
        (fun x => x - qtdBaixaCreate db.produtos inp.itens p.id) =
          (fun x => x - qtdProdutoCreate db.produtos inp.itens p.id) := by
      intro p
      funext x
      rw [qtdBaixaCreate_eq_qtdProdutoCreate db.produtos inp.itens p.id hprod]
    simp only [this]
  · rw [if_neg st, if_neg st]

theorem create_atomico_com_baixa_witness :
    vendaCreate dbExemplo inpCreateConcluida = .ok { dbExemplo with
      vendas := dbExemplo.vendas ++ [novaVenda dbExemplo inpCreateConcluida]
      itens := dbExemplo.itens ++ novosItens dbExemplo inpCreateConcluida
      nextVendaId := dbExemplo.nextVendaId + 1
      nextItemId := dbExemplo.nextItemId + inpCreateConcluida.itens.length
      produtos := if statusFinal inpCreateConcluida = "Concluida" then
          dbExemplo.produtos.map (fun p =>
            { p with estoque := p.estoque.map (· - qtdProdutoCreate dbExemplo.produtos inpCreateConcluida.itens p.id) })
        else dbExemplo.produtos } :=
  create_atomico_com_baixa dbExemplo inpCreateConcluida (by decide) (by decide) (by decide)
    (by decide) (by decide) (by decide)

/-- C9 (amended): the persisted total of a created sale is
`totalCalculado`: the caller's total whenever that value is a nonzero
number, and the sum of `quantidade * precoUnit` over the request lines
when the total is absent or `0`. -/
theorem create_total_persistido (db : DB) (inp : VendaInput)
    (h1 : inp.clienteId ≠ 0) (h2 : inp.usuarioId ≠ 0) (h3 : inp.itens ≠ [])
    (h4 : primeiroItemInvalido inp.itens = none)
    (h5 : verificarExistenciaRegistros db inp.clienteId inp.usuarioId inp.itens = []) :
    (vendaCreate db inp).map (fun d => d.vendas.map (fun v => v.total)) =
      .ok (db.vendas.map (fun v => v.total) ++ [totalCalculado inp]) ∧
    (∀ t, inp.total = some t → t ≠ 0 → totalCalculado inp = t) ∧
    ((inp.total = none ∨ inp.total = some 0) → totalCalculado inp = somaItensInput inp.itens) := by
  refine ⟨?_, fun t ht hne => ?_, fun h0 => ?_⟩
  · rw [vendaCreate_ok_shape db inp h1 h2 h3 h4 h5]
    simp [Except.map, novaVenda]
  · simp [totalCalculado, ht, hne]
  · rcases h0 with h0 | h0 <;> simp [totalCalculado, h0]

theorem create_total_persistido_witness :
    (vendaCreate dbExemplo inpCreateConcluida).map (fun d => d.vendas.map (fun v => v.total)) =
      .ok (dbExemplo.vendas.map (fun v => v.total) ++ [totalCalculado inpCreateConcluida]) ∧
    totalCalculado inpCreateConcluida = somaItensInput inpCreateConcluida.itens :=
  ⟨(create_total_persistido dbExemplo inpCreateConcluida (by decide) (by decide) (by decide)
      (by decide) (by decide)).1,
   (create_total_persistido dbExemplo inpCreateConcluida (by decide) (by decide) (by decide)
      (by decide) (by decide)).2.2 (Or.inl rfl)⟩

/-- C9 counterexample: a caller-supplied total of `0` is *not* persisted;
the stored total is the recomputed sum (5), so "the persisted total is
the caller-supplied total when one was supplied" fails at this input. -/
theorem create_total_contraexemplo :
    inpTotalZero.total = some 0 ∧
    (vendaCreate dbExemplo inpTotalZero).map (fun d => d.vendas.map (fun v => v.total)) =
      .ok [40, 2598, 5] ∧
    (5 : Rat) ≠ 0 := by
  refine ⟨rfl, ?_, by decide⟩
  rw [vendaCreate_ok_shape dbExemplo inpTotalZero (by decide) (by decide) (by decide)
    (by decide) (by decide)]
  simp only [Except.map, novaVenda, List.map_append, List.map_cons, List.map_nil]
  refine congrArg Except.ok ?_
  norm_num [dbExemplo, inpTotalZero, totalCalculado, somaItensInput]

/-! ## Stock checking on sale / line creation -/

/-- C3 (amended): on Create(sale) the per-line stock check exempts
non-Product-kind entries and reports, for a Product-kind line exceeding
stock (null counted as 0), the available and requested quantities, the
whole request failing with the collected errors before anything is
written; on AddLine the availability check applies to *every* catalog
entry regardless of kind, comparing the requested quantity against the
stock with null coerced to 0, and failure reports the (nullable)
available stock and the requested quantity with no state written. -/
theorem estoque_insuficiente_checagens (db : DB) :
    (∀ item : VendaItemInput, ∀ pr, findProduto db item.produtoId = some pr →
      pr.tipo ≠ "Produto" → erroEstoqueItem db item = none) ∧
    (∀ item : VendaItemInput, ∀ pr, findProduto db item.produtoId = some pr →
      pr.tipo = "Produto" → pr.estoque.getD 0 < item.quantidade →
      erroEstoqueItem db item =
        some (.estoqueInsuficiente pr.nome (pr.estoque.getD 0) item.quantidade)) ∧
    (∀ inp : VendaInput, inp.clienteId ≠ 0 → inp.usuarioId ≠ 0 → inp.itens ≠ [] →
      primeiroItemInvalido inp.itens = none →
      verificarExistenciaRegistros db inp.clienteId inp.usuarioId inp.itens ≠ [] →
      vendaCreate db inp =
        .error (.erroValidacao (verificarExistenciaRegistros db inp.clienteId inp.usuarioId inp.itens))) ∧
    (∀ inp : ItemVendaInput, ∀ pr v, validarItemVendaCreate inp = [] →
      verificarVendaModificavel db inp.vendaId = .ok v →
      findProduto db inp.produtoId = some pr → pr.status = "Ativo" →
      pr.estoque.getD 0 < inp.quantidade →
      itemVendaCreate db inp = .error (.estoqueInsuficiente pr.estoque inp.quantidade) ∧
      applyLineOp db (.add inp) = db) := by
  refine ⟨fun item pr hfind ht => ?_, fun item pr hfind ht hlt => ?_,
    fun inp h1 h2 h3 h4 hne => ?_, fun inp pr v hval hmod hfind hativo hlt => ?_⟩
  · simp only [erroEstoqueItem, hfind]
    rw [if_neg (by simp [ht])]
  · simp [erroEstoqueItem, hfind, ht, hlt]
  · have hids : ¬((inp.clienteId == 0 || inp.usuarioId == 0) = true) := by
      simp [h1, h2]
    simp only [vendaCreate]
    rw [if_neg hids, if_neg h3, h4]
    rw [if_pos hne]
  · have hdisp : verificarDisponibilidadeProduto db inp.produtoId inp.quantidade none =
        .error (.estoqueInsuficiente pr.estoque inp.quantidade) := by
      simp only [verificarDisponibilidadeProduto]
      rw [hfind]
      show (if pr.status ≠ "Ativo" then _ else _) = _
      rw [if_neg (not_not_intro hativo)]
      show (if pr.estoque.getD 0 < inp.quantidade then _ else _) = _
      rw [if_pos hlt]
    have herr : itemVendaCreate db inp = .error (.estoqueInsuficiente pr.estoque inp.quantidade) := by
      simp only [itemVendaCreate]
      rw [hval, if_neg (by simp), hmod]
      show (match verificarDisponibilidadeProduto db inp.produtoId inp.quantidade none with
        | .error e => Except.error e
        | .ok (produto, _) => _) = _
      rw [hdisp]
    exact ⟨herr, by simp [applyLineOp, runLineOp, herr]⟩

theorem estoque_insuficiente_checagens_witness :
    ((findProduto dbExemplo 1).map (fun p => p.tipo) = some "Produto") ∧
    erroEstoqueItem dbExemplo { produtoId := 1, quantidade := 13, precoUnit := some 1299 } =
      some (.estoqueInsuficiente "Projetor" 12 13) :=
  ⟨rfl, (estoque_insuficiente_checagens dbExemplo).2.1
    { produtoId := 1, quantidade := 13, precoUnit := some 1299 }
    { id := 1, nome := "Projetor", preco := 1299, estoque := some 12, tipo := "Produto", status := "Ativo" }
    rfl rfl (by decide)⟩

/-- C3 counterexample: an AddLine that references the *Service-kind*
entry (null stock) of `dbExemplo` is **not** exempt from the stock
check: it fails `estoqueInsuficiente` (null treated as 0), refuting
"Service-kind entries are exempt" for AddLine. -/
theorem estoque_servico_contraexemplo :
    (findProduto dbExemplo addServico.produtoId).map (fun p => (p.tipo, p.estoque)) =
      some ("Servico", none) ∧
    itemVendaCreate dbExemplo addServico = .error (.estoqueInsuficiente none 1) :=
  ⟨rfl, rfl⟩

/-! ## Modifiability of sale lines -/

theorem verificarVendaModificavel_erro (db : DB) (vid : Nat) (v : Venda)
    (hfind : findVenda db vid = some v)
    (hbad : v.status = "Concluida" ∨ v.status = "Cancelada") :
    verificarVendaModificavel db vid = .error (.vendaNaoModificavel v.status) := by
  simp only [verificarVendaModificavel]
  rw [hfind]
  rcases hbad with h | h
  · show (if v.status = "Concluida" then _ else _) = _
    rw [if_pos h, h]
  · show (if v.status = "Concluida" then _ else _) = _
    rw [if_neg (by simp [h]), if_pos h, h]

/-- C5 (amended): every line mutation on a sale whose status is
`Concluida` or `Cancelada` fails with the not-modifiable error and leaves
the store unchanged; conversely the guard admits exactly the sales whose
status is neither `Concluida` nor `Cancelada` (under the documented
status set this is "only while `Pendente`", but `create` stores any
status string unvalidated, and line mutations on such sales succeed —
see the counterexample). -/
theorem guarda_modificabilidade (db : DB) :
    (∀ inp : ItemVendaInput, ∀ v, validarItemVendaCreate inp = [] →
      findVenda db inp.vendaId = some v →
      (v.status = "Concluida" ∨ v.status = "Cancelada") →
      itemVendaCreate db inp = .error (.vendaNaoModificavel v.status) ∧
      applyLineOp db (.add inp) = db) ∧
    (∀ id : Nat, ∀ inp : ItemVendaUpdate, ∀ it v, validarItemVendaUpdate inp = [] →
      findItem db id = some it → findVenda db it.vendaId = some v →
      (v.status = "Concluida" ∨ v.status = "Cancelada") →
      itemVendaUpdate db id inp = .error (.vendaNaoModificavel v.status) ∧
      applyLineOp db (.upd id inp) = db) ∧
    (∀ id : Nat, ∀ it v, findItem db id = some it → findVenda db it.vendaId = some v →
      (v.status = "Concluida" ∨ v.status = "Cancelada") →
      itemVendaRemove db id = .error (.vendaNaoModificavel v.status) ∧
      applyLineOp db (.del id) = db) ∧
    (∀ vid : Nat, ∀ w, verificarVendaModificavel db vid = .ok w ↔
      findVenda db vid = some w ∧ w.status ≠ "Concluida" ∧ w.status ≠ "Cancelada") := by
  refine ⟨fun inp v hval hfind hbad => ?_, fun id inp it v hval hit hfind hbad => ?_,
    fun id it v hit hfind hbad => ?_, fun vid w => ?_⟩
  · have herr : itemVendaCreate db inp = .error (.vendaNaoModificavel v.status) := by
      simp only [itemVendaCreate]
      rw [hval, if_neg (by simp), verificarVendaModificavel_erro db inp.vendaId v hfind hbad]
    exact ⟨herr, by simp [applyLineOp, runLineOp, herr]⟩
  · have herr : itemVendaUpdate db id inp = .error (.vendaNaoModificavel v.status) := by
      simp only [itemVendaUpdate]
      rw [hval, if_neg (by simp), hit]
      show (match verificarVendaModificavel db it.vendaId with
        | .error e => Except.error e
        | .ok _ => _) = _
      rw [verificarVendaModificavel_erro db it.vendaId v hfind hbad]
    exact ⟨herr, by simp [applyLineOp, runLineOp, herr]⟩
  · have herr : itemVendaRemove db id = .error (.vendaNaoModificavel v.status) := by
      simp only [itemVendaRemove]
      rw [hit]
      show (match verificarVendaModificavel db it.vendaId with
        | .error e => Except.error e
        | .ok _ => _) = _
      rw [verificarVendaModificavel_erro db it.vendaId v hfind hbad]
    exact ⟨herr, by simp [applyLineOp, runLineOp, herr]⟩
  · simp only [verificarVendaModificavel]
    rcases hf : findVenda db vid with _ | u
    · simp
    · by_cases h1 : u.status = "Concluida"
      · simp [h1]
        rintro rfl h
        exact absurd h1 h
      · by_cases h2 : u.status = "Cancelada"
        · simp [h1, h2]
          rintro rfl -
          exact h2
        · simp only [if_neg h1, if_neg h2]
          constructor
          · rintro h
            cases h
            exact ⟨rfl, h1, h2⟩
          · rintro ⟨hw, -, -⟩
            cases hw
            rfl

theorem guarda_modificabilidade_witness :
    itemVendaCreate dbExemplo { vendaId := 2, produtoId := 2, quantidade := 1, precoUnit := some 20 } =
      .error (.vendaNaoModificavel "Concluida") ∧
    applyLineOp dbExemplo (.add { vendaId := 2, produtoId := 2, quantidade := 1, precoUnit := some 20 }) =
      dbExemplo :=
  (guarda_modificabilidade dbExemplo).1
    { vendaId := 2, produtoId := 2, quantidade := 1, precoUnit := some 20 }
    vendaConcluidaExemplo rfl rfl (Or.inl rfl)

/-- C5 counterexample: `create` stores the unvalidated status
"EmAndamento", and an AddLine on that sale *succeeds*, so line mutations
are not permitted "only while the sale's status is Pendente". -/
theorem modificabilidade_contraexemplo :
    (vendaCreate dbExemplo inpStatusLivre).map (fun d => d.vendas.map (fun w => w.status)) =
      .ok ["Pendente", "Concluida", "EmAndamento"] ∧
    ((vendaCreate dbExemplo inpStatusLivre).bind (fun d =>
      itemVendaCreate d { vendaId := 3, produtoId := 2, quantidade := 1, precoUnit := some 20 })).isOk
      = true :=
  ⟨rfl, rfl⟩

/-! ## Net-quantity availability on UpdateLine -/

/-- C6: when updating a line, `verificarDisponibilidadeProduto` receives
the line id and therefore compares the stock against the *net* additional
quantity — the requested quantity minus the line's stored quantity —
never the gross request; consequently an update whose net increase fits
the stock succeeds even when the gross quantity exceeds it (see the
witness: stock 1, stored 5, requested 6). -/
theorem updateLine_verifica_liquido (db : DB) (produtoId : Nat) (quantidade : Int)
    (itemId : Nat) (itemAtual : ItemVenda) (produto : Produto) (v : Venda)
    (hitem : findItem db itemId = some itemAtual)
    (hprod : findProduto db produtoId = some produto)
    (hativo : produto.status = "Ativo") :
    verificarDisponibilidadeProduto db produtoId quantidade (some itemId) =
      (if produto.estoque.getD 0 < quantidade - itemAtual.quantidade then
        .error (.estoqueInsuficiente produto.estoque (quantidade - itemAtual.quantidade))
      else .ok (produto, quantidade - itemAtual.quantidade)) ∧
    (∀ inp : ItemVendaUpdate, validarItemVendaUpdate inp = [] →
      inp.quantidade = some quantidade → inp.produtoId = none →
      itemAtual.produtoId = produtoId →
      verificarVendaModificavel db itemAtual.vendaId = .ok v →
      ¬(produto.estoque.getD 0 < quantidade - itemAtual.quantidade) →
      (itemVendaUpdate db itemId inp).isOk = true) := by
  have hdisp : verificarDisponibilidadeProduto db produtoId quantidade (some itemId) =
      (if produto.estoque.getD 0 < quantidade - itemAtual.quantidade then
        .error (.estoqueInsuficiente produto.estoque (quantidade - itemAtual.quantidade))
      else .ok (produto, quantidade - itemAtual.quantidade)) := by
    simp only [verificarDisponibilidadeProduto]
    rw [hprod]
    show (if produto.status ≠ "Ativo" then _ else _) = _
    rw [if_neg (not_not_intro hativo), hitem]
  refine ⟨hdisp, fun inp hval hq hpid hidsame hmod hfits => ?_⟩
  have hqpos : ¬(quantidade ≤ 0) := by
    intro hle
    simp [validarItemVendaUpdate, hq, hle] at hval
  have hqne : quantidade ≠ 0 := by omega
  have ha : jsOrNat inp.produtoId itemAtual.produtoId = produtoId := by
    rw [hpid, hidsame]
    rfl
  have hb : jsOrInt inp.quantidade itemAtual.quantidade = quantidade := by
    rw [hq]
    simp [jsOrInt, jsTruthyInt, hqne]
  have htr : (jsTruthyNat inp.produtoId || jsTruthyInt inp.quantidade) = true := by
    rw [hq, hpid]
    simp [jsTruthyNat, jsTruthyInt, hqne]
  simp only [itemVendaUpdate]
  rw [hval, if_neg (by simp), hitem]
  show (match verificarVendaModificavel db itemAtual.vendaId with
    | .error e => Except.error e
    | .ok _ => _).isOk = true
  rw [hmod]
  show (match (if (jsTruthyNat inp.produtoId || jsTruthyInt inp.quantidade) = true then
      match verificarDisponibilidadeProduto db (jsOrNat inp.produtoId itemAtual.produtoId)
        (jsOrInt inp.quantidade itemAtual.quantidade) (some itemId) with
      | .error e => Except.error e
      | .ok _ => Except.ok ()
    else Except.ok ()) with
    | .error e => Except.error e
    | .ok _ => Except.ok (atualizarTotalVenda { db with
        itens := db.itens.map (fun it : ItemVenda =>
          if it.id = itemId then aplicarAtualizacaoItem inp it else it) }
        itemAtual.vendaId)).isOk = true
  rw [htr, if_pos rfl, ha, hb, hdisp, if_neg hfits]
  rfl

theorem updateLine_verifica_liquido_witness :
    (itemVendaUpdate dbEstoqueBaixo 1
      { quantidade := some 6, precoUnit := none, produtoId := none }).isOk = true :=
  (updateLine_verifica_liquido dbEstoqueBaixo 1 6 1
    { id := 1, vendaId := 1, produtoId := 1, quantidade := 5, precoUnit := 10 }
    { id := 1, nome := "P", preco := 10, estoque := some 1, tipo := "Produto", status := "Ativo" }
    vendaEstoqueBaixo rfl rfl rfl).2
    { quantidade := some 6, precoUnit := none, produtoId := none }
    rfl rfl rfl rfl rfl (by decide)

/-! ## Unit-price defaulting -/

theorem primeiroItemInvalidoAux_shape (itens : List VendaItemInput) :
    ∀ (idx : Nat) (e : Erro), primeiroItemInvalidoAux idx itens = some e →
      ∃ k c, e = .itemInvalido k c := by
  induction itens with
  | nil =>
    intro idx e h
    simp [primeiroItemInvalidoAux] at h
  | cons item rest ih =>
    intro idx e h
    simp only [primeiroItemInvalidoAux] at h
    rcases hcase : itemVendaInvalido item with _ | campo
    · rw [hcase] at h
      exact ih (idx + 1) e h
    · rw [hcase] at h
      cases h
      exact ⟨idx, campo, rfl⟩

theorem primeiroItemInvalidoAux_none (itens : List VendaItemInput) :
    ∀ idx : Nat, primeiroItemInvalidoAux idx itens = none →
      ∀ item ∈ itens, itemVendaInvalido item = none := by
  induction itens with
  | nil =>
    intro idx _ item hmem
    simp at hmem
  | cons hd rest ih =>
    intro idx h item hmem
    simp only [primeiroItemInvalidoAux] at h
    rcases hcase : itemVendaInvalido hd with _ | campo
    · rw [hcase] at h
      rcases List.mem_cons.mp hmem with rfl | hmem'
      · exact hcase
      · exact ih (idx + 1) h item hmem'
    · rw [hcase] at h
      cases h

theorem itemVendaInvalido_sem_preco (item : VendaItemInput) (hnone : item.precoUnit = none) :
    itemVendaInvalido item ≠ none := by
  simp only [itemVendaInvalido, hnone]
  split
  · simp
  · split
    · simp
    · rw [if_pos (by simp [jsTruthyRat])]
      simp

/-- C8 (amended): in AddLine a line created without `precoUnit` is stored
with the referenced catalog entry's current price; in Create(sale),
however, `precoUnit` is required per line — a request with any line
omitting it is rejected with a per-line validation error, so no
defaulting takes place there (see the counterexample). -/
theorem preco_padrao (db : DB) :
    (∀ inp : ItemVendaInput, ∀ v produto, inp.precoUnit = none →
      validarItemVendaCreate inp = [] →
      verificarVendaModificavel db inp.vendaId = .ok v →
      verificarDisponibilidadeProduto db inp.produtoId inp.quantidade none =
        .ok (produto, inp.quantidade) →
      itemVendaCreate db inp = .ok (atualizarTotalVenda { db with
        itens := db.itens ++
          [{ id := db.nextItemId, vendaId := inp.vendaId, produtoId := inp.produtoId
             quantidade := inp.quantidade, precoUnit := produto.preco }]
        nextItemId := db.nextItemId + 1 } inp.vendaId)) ∧
    (∀ inp : VendaInput, inp.clienteId ≠ 0 → inp.usuarioId ≠ 0 → inp.itens ≠ [] →
      (∃ item ∈ inp.itens, item.precoUnit = none) →
      ∃ k campo, vendaCreate db inp = .error (.itemInvalido k campo)) := by
  constructor
  · intro inp v produto hnone hval hmod hdisp
    simp only [itemVendaCreate]
    rw [hval, if_neg (by simp), hmod]
    show (match verificarDisponibilidadeProduto db inp.produtoId inp.quantidade none with
      | .error e => Except.error e
      | .ok (produto, _) => _) = _
    rw [hdisp]
    show Except.ok (atualizarTotalVenda { db with
      itens := db.itens ++
        [{ id := db.nextItemId, vendaId := inp.vendaId, produtoId := inp.produtoId
           quantidade := inp.quantidade, precoUnit := jsOrRat inp.precoUnit produto.preco }]
      nextItemId := db.nextItemId + 1 } inp.vendaId) = _
    rw [hnone]
    rfl
  · intro inp h1 h2 h3 hex
    rcases hex with ⟨item, hmem, hpn⟩
    rcases he : primeiroItemInvalido inp.itens with _ | e
    · exact absurd (primeiroItemInvalidoAux_none inp.itens 1 he item hmem)
        (itemVendaInvalido_sem_preco item hpn)
    · obtain ⟨k, c, rfl⟩ := primeiroItemInvalidoAux_shape inp.itens 1 e he
      refine ⟨k, c, ?_⟩
      simp only [vendaCreate]
      rw [if_neg (by simp [h1, h2]), if_neg h3, he]

theorem preco_padrao_witness :
    itemVendaCreate dbExemplo addSemPreco = .ok (atualizarTotalVenda { dbExemplo with
      itens := dbExemplo.itens ++
        [{ id := dbExemplo.nextItemId, vendaId := addSemPreco.vendaId
           produtoId := addSemPreco.produtoId, quantidade := addSemPreco.quantidade
           precoUnit := (20 : Rat) }]
      nextItemId := dbExemplo.nextItemId + 1 } addSemPreco.vendaId) :=
  (preco_padrao dbExemplo).1 addSemPreco vendaPendenteExemplo
    { id := 2, nome := "CachorroQuente", preco := 20, estoque := some 100, tipo := "Produto", status := "Ativo" }
    rfl rfl rfl rfl

/-- C8 counterexample: in Create(sale) a line without `precoUnit` does
*not* default to the catalog price — the request is rejected with the
"precoUnit" per-line validation error. -/
theorem preco_padrao_contraexemplo :
    inpSemPreco.itens.map (fun i => i.precoUnit) = [none] ∧
    vendaCreate dbExemplo inpSemPreco = .error (.itemInvalido 1 "precoUnit") :=
  ⟨rfl, rfl⟩

/-! ## The total invariant under line mutations -/

theorem itemVendaCreate_ok (db : DB) (inp : ItemVendaInput) (db' : DB)
    (h : itemVendaCreate db inp = .ok db') :
    ∃ novo : ItemVenda, novo.id = db.nextItemId ∧ novo.vendaId = inp.vendaId ∧
      db' = atualizarTotalVenda
        { db with itens := db.itens ++ [novo], nextItemId := db.nextItemId + 1 } inp.vendaId := by
  simp only [itemVendaCreate] at h
  split at h
  · exact absurd h (by simp)
  · split at h
    · exact absurd h (by simp)
    · split at h
      · exact absurd h (by simp)
      · cases h
        exact ⟨_, rfl, rfl, rfl⟩

theorem itemVendaUpdate_ok (db : DB) (id : Nat) (inp : ItemVendaUpdate) (db' : DB)
    (h : itemVendaUpdate db id inp = .ok db') :
    ∃ itemAtual : ItemVenda, findItem db id = some itemAtual ∧
      db' = atualizarTotalVenda { db with
        itens := db.itens.map (fun it => if it.id = id then aplicarAtualizacaoItem inp it else it) }
        itemAtual.vendaId := by
  simp only [itemVendaUpdate] at h
  split at h
  · exact absurd h (by simp)
  · split at h
    · exact absurd h (by simp)
    · rename_i itemAtual heq
      split at h
      · exact absurd h (by simp)
      · by_cases hcond : (jsTruthyNat inp.produtoId || jsTruthyInt inp.quantidade) = true
        · rw [if_pos hcond] at h
          rcases hd : verificarDisponibilidadeProduto db (jsOrNat inp.produtoId itemAtual.produtoId)
              (jsOrInt inp.quantidade itemAtual.quantidade) (some id) with e | pr
          · rw [hd] at h
            exact absurd h (by simp)
          · rw [hd] at h
            exact ⟨itemAtual, heq, (Except.ok.inj h).symm⟩
        · rw [if_neg hcond] at h
          exact ⟨itemAtual, heq, (Except.ok.inj h).symm⟩

theorem itemVendaRemove_ok (db : DB) (id : Nat) (db' : DB)
    (h : itemVendaRemove db id = .ok db') :
    ∃ item : ItemVenda, findItem db id = some item ∧
      db' = atualizarTotalVenda { db with
        itens := db.itens.filter (fun it => it.id ≠ id) } item.vendaId := by
  simp only [itemVendaRemove] at h
  split at h
  · exact absurd h (by simp)
  · rename_i item heq
    split at h
    · exact absurd h (by simp)
    · exact ⟨item, heq, (Except.ok.inj h).symm⟩

theorem totalVenda_append_other (its : List ItemVenda) (novo : ItemVenda) (w : Nat)
    (h : novo.vendaId ≠ w) : totalVenda (its ++ [novo]) w = totalVenda its w := by
  unfold totalVenda itensDaVenda
  rw [List.filter_append]
  have hdrop : List.filter (fun it => it.vendaId == w) [novo] = [] := by
    simp [h]
  rw [hdrop, List.append_nil]

theorem totalVenda_map_fixo (f : ItemVenda → ItemVenda) (w : Nat)
    (hf : ∀ it, (f it).vendaId = it.vendaId) :
    ∀ its : List ItemVenda, (∀ it ∈ its, it.vendaId = w → f it = it) →
      totalVenda (its.map f) w = totalVenda its w := by
  intro its
  induction its with
  | nil => intro _; rfl
  | cons a t ih =>
    intro hfix
    have ht := ih (fun it hit => hfix it (List.mem_cons_of_mem a hit))
    unfold totalVenda itensDaVenda at ht ⊢
    simp only [List.map_cons, List.filter_cons]
    by_cases hw : a.vendaId = w
    · have h1 : ((f a).vendaId == w) = true := by simp [hf a, hw]
      have h2 : (a.vendaId == w) = true := by simp [hw]
      rw [h1, h2]
      simp only [if_true]
      rw [hfix a (List.mem_cons_self a t) hw] at *
      simp only [List.map_cons, List.sum_cons]
      rw [ht]
    · have h1 : ((f a).vendaId == w) = false := by simp [hf a, hw]
      have h2 : (a.vendaId == w) = false := by simp [hw]
      rw [h1, h2]
      simpa using ht

theorem totalVenda_filter_outro (i : Nat) (w : Nat) :
    ∀ its : List ItemVenda, (∀ it ∈ its, it.id = i → it.vendaId ≠ w) →
      totalVenda (its.filter (fun it => it.id ≠ i)) w = totalVenda its w := by
  intro its
  induction its with
  | nil => intro _; rfl
  | cons a t ih =>
    intro hout
    have ht := ih (fun it hit => hout it (List.mem_cons_of_mem a hit))
    unfold totalVenda itensDaVenda at ht ⊢
    simp only [List.filter_cons]
    by_cases ha : a.id = i
    · have hb : a.vendaId ≠ w := hout a (List.mem_cons_self a t) ha
      have h1 : (decide (a.id ≠ i)) = false := by simp [ha]
      have h2 : (a.vendaId == w) = false := by simp [hb]
      rw [h1, h2]
      simpa using ht
    · have h1 : (decide (a.id ≠ i)) = true := by simp [ha]
      rw [h1]
      simp only [if_true, List.filter_cons]
      by_cases hw : a.vendaId = w
      · have h2 : (a.vendaId == w) = true := by simp [hw]
        rw [h2]
        simp only [if_true, List.map_cons, List.sum_cons]
        rw [ht]
      · have h2 : (a.vendaId == w) = false := by simp [hw]
        rw [h2]
        simpa using ht

/-- One line request preserves primary-key sanity and the total
invariant: a rejected request leaves the store untouched, and a
successful one recomputes the parent sale's total inside the same
transaction while leaving every other sale's lines unchanged. -/
theorem passo_preserva (db : DB) (op : LineOp)
    (hwf : itensBemFormados db) (hinv : totalInvariante db) :
    itensBemFormados (applyLineOp db op) ∧ totalInvariante (applyLineOp db op) := by
  rcases hrun : runLineOp db op with e | db'
  · rw [show applyLineOp db op = db by simp [applyLineOp, hrun]]
    exact ⟨hwf, hinv⟩
  rw [show applyLineOp db op = db' by simp [applyLineOp, hrun]]
  cases op with
  | add inp =>
    obtain ⟨novo, hnid, hnv, rfl⟩ := itemVendaCreate_ok db inp db' hrun
    refine ⟨⟨?_, ?_⟩, ?_⟩
    · show ((db.itens ++ [novo]).map (fun it => it.id)).Nodup
      rw [List.map_append, List.nodup_append]
      refine ⟨hwf.1, by simp, ?_⟩
      intro a ha hb
      simp only [List.map_cons, List.map_nil, List.mem_singleton] at hb
      obtain ⟨it, hit, rfl⟩ := List.mem_map.mp ha
      have hlt := hwf.2 it hit
      rw [hb, hnid] at hlt
      omega
    · show ∀ it ∈ db.itens ++ [novo], it.id < db.nextItemId + 1
      intro it hit
      rcases List.mem_append.mp hit with hmem | hmem
      · exact Nat.lt_succ_of_lt (hwf.2 it hmem)
      · simp only [List.mem_singleton] at hmem
        rw [hmem, hnid]
        omega
    · intro v' hv'
      have hv'' : v' ∈ db.vendas.map (fun v =>
          if v.id = inp.vendaId then
            { v with total := totalVenda (db.itens ++ [novo]) inp.vendaId } else v) := hv'
      obtain ⟨v, hv, rfl⟩ := List.mem_map.mp hv''
      by_cases hid : v.id = inp.vendaId
      · simp only [if_pos hid]
        show totalVenda (db.itens ++ [novo]) inp.vendaId =
          totalVenda (db.itens ++ [novo]) v.id
        rw [hid]
      · rw [if_neg hid]
        show v.total = totalVenda (db.itens ++ [novo]) v.id
        rw [hinv v hv]
        exact (totalVenda_append_other db.itens novo v.id
          (by rw [hnv]; exact fun hh => hid hh.symm)).symm
  | upd id inp =>
    obtain ⟨itemAtual, hfound, rfl⟩ := itemVendaUpdate_ok db id inp db' hrun
    have hmem : itemAtual ∈ db.itens := List.mem_of_find?_eq_some hfound
    have hidat : itemAtual.id = id := by simpa using List.find?_some hfound
    have hidpres : ∀ it : ItemVenda,
        (if it.id = id then aplicarAtualizacaoItem inp it else it).id = it.id := by
      intro it
      by_cases hcase : it.id = id <;> simp [hcase, aplicarAtualizacaoItem]
    have hvpres : ∀ it : ItemVenda,
        (if it.id = id then aplicarAtualizacaoItem inp it else it).vendaId = it.vendaId := by
      intro it
      by_cases hcase : it.id = id <;> simp [hcase, aplicarAtualizacaoItem]
    refine ⟨⟨?_, ?_⟩, ?_⟩
    · show (((db.itens.map (fun it => if it.id = id then aplicarAtualizacaoItem inp it else it))).map
        (fun it => it.id)).Nodup
      rw [List.map_map]
      have hcomp : ((fun it : ItemVenda => it.id) ∘
          (fun it => if it.id = id then aplicarAtualizacaoItem inp it else it)) =
          (fun it : ItemVenda => it.id) := funext hidpres
      rw [hcomp]
      exact hwf.1
    · intro it' hit'
      obtain ⟨it, hit, rfl⟩ := List.mem_map.mp hit'
      show (if it.id = id then aplicarAtualizacaoItem inp it else it).id < db.nextItemId
      rw [hidpres it]
      exact hwf.2 it hit
    · intro v' hv'
      obtain ⟨v, hv, rfl⟩ := List.mem_map.mp hv'
      by_cases hid : v.id = itemAtual.vendaId
      · simp only [if_pos hid]
        show totalVenda (db.itens.map (fun it =>
            if it.id = id then aplicarAtualizacaoItem inp it else it)) itemAtual.vendaId =
          totalVenda (db.itens.map (fun it =>
            if it.id = id then aplicarAtualizacaoItem inp it else it)) v.id
        rw [hid]
      · rw [if_neg hid]
        show v.total = totalVenda (db.itens.map
          (fun it => if it.id = id then aplicarAtualizacaoItem inp it else it)) v.id
        rw [hinv v hv]
        refine (totalVenda_map_fixo _ v.id hvpres db.itens ?_).symm
        intro it hit hw
        by_cases hcase : it.id = id
        · have heqit : it = itemAtual :=
            List.inj_on_of_nodup_map hwf.1 hit hmem (by rw [hcase, hidat])
          rw [heqit] at hw
          exact absurd hw.symm hid
        · simp [hcase]
  | del id =>
    obtain ⟨item, hfound, rfl⟩ := itemVendaRemove_ok db id db' hrun
    have hmem : item ∈ db.itens := List.mem_of_find?_eq_some hfound
    have hidat : item.id = id := by simpa using List.find?_some hfound
    refine ⟨⟨?_, ?_⟩, ?_⟩
    · show (((db.itens.filter (fun it => it.id ≠ id))).map (fun it => it.id)).Nodup
      exact hwf.1.sublist (List.Sublist.map _ (List.filter_sublist _))
    · intro it' hit'
      exact hwf.2 it' (List.mem_of_mem_filter hit')
    · intro v' hv'
      obtain ⟨v, hv, rfl⟩ := List.mem_map.mp hv'
      by_cases hid : v.id = item.vendaId
      · simp only [if_pos hid]
        show totalVenda (db.itens.filter (fun it => it.id ≠ id)) item.vendaId =
          totalVenda (db.itens.filter (fun it => it.id ≠ id)) v.id
        rw [hid]
      · rw [if_neg hid]
        show v.total = totalVenda (db.itens.filter (fun it => it.id ≠ id)) v.id
        rw [hinv v hv]
        refine (totalVenda_filter_outro id v.id db.itens ?_).symm
        intro it hit hidit
        have heqit : it = item :=
          List.inj_on_of_nodup_map hwf.1 hit hmem (by rw [hidit, hidat])
        rw [heqit]
        exact fun hw => hid hw.symm

/-- C1: starting from a store whose line ids are sane and whose sales all
satisfy `total = Σ quantidade * precoUnit` over their lines, any sequence
of AddLine / UpdateLine / DeleteLine requests preserves that invariant:
every successful mutation recomputes and writes the parent sale's total
in the same transaction, and every rejected one changes nothing. -/
theorem total_invariante_sequencias (db : DB) (ops : List LineOp)
    (hwf : itensBemFormados db) (hinv : totalInvariante db) :
    totalInvariante (ops.foldl applyLineOp db) := by
  have main : ∀ (ops' : List LineOp) (d : DB), itensBemFormados d → totalInvariante d →
      itensBemFormados (ops'.foldl applyLineOp d) ∧ totalInvariante (ops'.foldl applyLineOp d) := by
    intro ops'
    induction ops' with
    | nil => exact fun d hw hi => ⟨hw, hi⟩
    | cons op rest ih =>
      intro d hw hi
      have hstep := passo_preserva d op hw hi
      simpa [List.foldl_cons] using ih (applyLineOp d op) hstep.1 hstep.2
  exact (main ops db hwf hinv).2

theorem total_invariante_sequencias_witness :
    itensBemFormados dbSimples ∧ totalInvariante dbSimples ∧
      totalInvariante (opsSimples.foldl applyLineOp dbSimples) := by
  have h1 : itensBemFormados dbSimples := by
    unfold itensBemFormados
    decide
  have h2 : totalInvariante dbSimples := by
    unfold totalInvariante
    decide
  exact ⟨h1, h2, total_invariante_sequencias dbSimples opsSimples h1 h2⟩

end NexoERP
